import Mathlib

/-!
Shallow embedding of the GRBL LM4F120H5QR stepper driver core
(`stepper.c`, `report.c`, `main.c`) and proofs about its trapezoid
generator, Bresenham step tracer, runtime-control FSM and status
reporting.

All `uint32_t` quantities are modelled as `Nat` with explicit wrap-around
(`u32add` / `u32sub`, reduction modulo 2^32) at the places where the C
code performs unsigned arithmetic that could wrap; `int32_t` Bresenham
accumulators are modelled as `Int`.
-/

namespace Grbl

/-- 2^32, the modulus of `uint32_t` arithmetic. -/
def u32size : Nat := 4294967296

/-- `uint32_t` addition with wrap-around. -/
def u32add (a b : Nat) : Nat := (a + b) % u32size

/-- `uint32_t` subtraction with wrap-around (for `b < 2^32`). -/
def u32sub (a b : Nat) : Nat := (a + (u32size - b)) % u32size

/-- CPU clock of the LM4F120H5QR port: `main.c` configures the PLL for
80 MHz and `stepper.c` notes `TICKS_PER_MICROSECOND` is 80 on ARM. -/
def F_CPU : Nat := 80000000

/-- `#define TICKS_PER_MICROSECOND (F_CPU/1000000)` (stepper.c line 41). -/
def TICKS_PER_MICROSECOND : Nat := F_CPU / 1000000

/-- Modelled from the spec: `ACCELERATION_TICKS_PER_SECOND` lives in the
missing `config.h`. The source comment at stepper.c line 43 states that
`CYCLES_PER_ACCELERATION_TICK` evaluates to 320000 on this ARM port,
which fixes the tick frequency at 250 for the 80 MHz clock. -/
def ACCELERATION_TICKS_PER_SECOND : Nat := 250

/-- `#define CYCLES_PER_ACCELERATION_TICK
((TICKS_PER_MICROSECOND*1000000)/ACCELERATION_TICKS_PER_SECOND)`
(stepper.c line 43; evaluates to 320000). -/
def CYCLES_PER_ACCELERATION_TICK : Nat :=
  (TICKS_PER_MICROSECOND * 1000000) / ACCELERATION_TICKS_PER_SECOND

/-- Modelled from the spec: `MINIMUM_STEPS_PER_MINUTE` lives in the
missing `config.h`; the spec only requires a positive floor on the step
rate, and we fix the mainline-grbl default value. -/
def MINIMUM_STEPS_PER_MINUTE : Nat := 800

/-- Modelled from the spec: the step/direction pin assignment lives in
the missing `config.h`. The spec requires only that the three step bits
and three direction bits are distinct pins; we fix the mainline-grbl
default layout. -/
def X_STEP_BIT : Nat := 2

/-- Modelled from the spec: see `X_STEP_BIT`. -/
def Y_STEP_BIT : Nat := 3

/-- Modelled from the spec: see `X_STEP_BIT`. -/
def Z_STEP_BIT : Nat := 4

/-- Modelled from the spec: see `X_STEP_BIT`. -/
def X_DIRECTION_BIT : Nat := 5

/-- Modelled from the spec: see `X_STEP_BIT`. -/
def Y_DIRECTION_BIT : Nat := 6

/-- Modelled from the spec: see `X_STEP_BIT`. -/
def Z_DIRECTION_BIT : Nat := 7

/-- Modelled from the spec: the `EXEC_CYCLE_STOP` bit mask of
`sys.execute` lives in the missing `nuts_bolts.h`; the spec only names
it as one bit of the runtime-event bitset (mainline default: bit 2). -/
def EXEC_CYCLE_STOP : Nat := 4

/-- The machine states of `sys.state` (the `STATE_...` constants used by
`stepper.c`, `main.c` and `report.c`). -/
inductive MachState where
  | Init
  | Idle
  | Queued
  | Cycle
  | Hold
  | Homing
  | Alarm
  | Check
deriving DecidableEq, Repr

/-- The planner block fields read by `stepper.c` (`block_t` of the
planner; declaration is in the missing `planner.h`, but every field and
its meaning is fixed by its use in `stepper.c` and by the spec §3). -/
structure block_t where
  steps_x : Nat
  steps_y : Nat
  steps_z : Nat
  step_event_count : Nat
  direction_bits : Nat
  nominal_rate : Nat
  initial_rate : Nat
  final_rate : Nat
  rate_delta : Nat
  accelerate_until : Nat
  decelerate_after : Nat
deriving DecidableEq, Repr

/-- `stepper_t` (stepper.c lines 46-60): Bresenham accumulators are
`int32_t`, the rest is `uint32_t`. -/
structure stepper_t where
  counter_x : Int
  counter_y : Int
  counter_z : Int
  event_count : Nat
  step_events_completed : Nat
  cycles_per_step_event : Nat
  trapezoid_tick_cycle_counter : Nat
  trapezoid_adjusted_rate : Nat
  min_safe_rate : Nat
deriving DecidableEq, Repr

/-- `sys.position`, one `int32_t` per axis. -/
structure PosT where
  x : Int
  y : Int
  z : Int
deriving DecidableEq, Repr

/-- `config_step_timer` (stepper.c lines 463-466): on this port it just
loads TIMER1 with the requested cycle count and returns it unchanged. -/
def config_step_timer (cycles : Nat) : Nat := cycles

/-- The cycle count computed by `set_step_events_per_minute` (stepper.c
lines 522-527): the argument is floored at `MINIMUM_STEPS_PER_MINUTE`
and the period is `config_step_timer((F_CPU/steps_per_minute)*60)`. -/
def cyclesPerStepEvent (steps_per_minute : Nat) : Nat :=
  config_step_timer
    ((F_CPU / (if steps_per_minute < MINIMUM_STEPS_PER_MINUTE
               then MINIMUM_STEPS_PER_MINUTE else steps_per_minute)) * 60)

/-- `set_step_events_per_minute` (stepper.c lines 522-527): installs
`cyclesPerStepEvent steps_per_minute` as the stepper timer period. -/
def set_step_events_per_minute (steps_per_minute : Nat) (s : stepper_t) : stepper_t :=
  { s with cycles_per_step_event := cyclesPerStepEvent steps_per_minute }

/-- The condition under which `iterate_trapezoid_cycle_counter`
(stepper.c lines 156-165) returns true, i.e. an acceleration tick fires
on this ISR firing. -/
abbrev tickFires (s : stepper_t) : Prop :=
  CYCLES_PER_ACCELERATION_TICK <
    u32add s.trapezoid_tick_cycle_counter s.cycles_per_step_event

/-- The counter update of `iterate_trapezoid_cycle_counter` (stepper.c
lines 156-165): add `cycles_per_step_event`, subtract
`CYCLES_PER_ACCELERATION_TICK` when the sum exceeds it. -/
def iterTrapCounter (s : stepper_t) : stepper_t :=
  let c := u32add s.trapezoid_tick_cycle_counter s.cycles_per_step_event
  if CYCLES_PER_ACCELERATION_TICK < c then
    { s with trapezoid_tick_cycle_counter := c - CYCLES_PER_ACCELERATION_TICK }
  else
    { s with trapezoid_tick_cycle_counter := c }

/-- The rate update of the acceleration branch (stepper.c lines
290-294): add `rate_delta`, clamping at `nominal_rate` from above. -/
def accelRate (b : block_t) (rate : Nat) : Nat :=
  if b.nominal_rate ≤ u32add rate b.rate_delta then b.nominal_rate
  else u32add rate b.rate_delta

/-- The unclamped rate of a deceleration tick (stepper.c lines 319-323):
subtract `rate_delta` above `min_safe_rate`, else halve (`>> 1`). -/
def decelRate0 (b : block_t) (min_safe rate : Nat) : Nat :=
  if min_safe < rate then u32sub rate b.rate_delta else rate / 2

/-- The rate update of a deceleration tick (stepper.c lines 319-327):
`decelRate0` clamped at `final_rate` from below. -/
def decelRate (b : block_t) (min_safe rate : Nat) : Nat :=
  if decelRate0 b min_safe rate < b.final_rate then b.final_rate
  else decelRate0 b min_safe rate

/-- Result of the trapezoid section of the step ISR (stepper.c lines
254-343): the updated stepper state plus the externally visible actions
taken there: `blockDone` means `current_block = NULL; plan_discard_current_block()`,
`goIdle` means `st_go_idle()`, `cycleStop` means `bit_true(sys.execute,EXEC_CYCLE_STOP)`. -/
structure TrapOut where
  st : stepper_t
  blockDone : Bool
  goIdle : Bool
  cycleStop : Bool
deriving DecidableEq, Repr

/-- Trapezoid-generator section of `timer1_compare_interrupt`
(stepper.c lines 254-343), run after the Bresenham section with
`step_events_completed` already incremented. The counter update of
`iterate_trapezoid_cycle_counter` and the `set_step_events_per_minute`
call after a rate change (which only installs
`cyclesPerStepEvent <new rate>`) are fused into a single record update
per branch. -/
def trapezoidPhase (state : MachState) (b : block_t) (s : stepper_t) : TrapOut :=
  if s.step_events_completed < b.step_event_count then
    if state = MachState.Hold then
      -- Feed hold: steady deceleration, boundaries ignored (lines 256-277)
      if CYCLES_PER_ACCELERATION_TICK <
          u32add s.trapezoid_tick_cycle_counter s.cycles_per_step_event then
        if s.trapezoid_adjusted_rate ≤ b.rate_delta then
          ⟨{ s with trapezoid_tick_cycle_counter :=
               u32add s.trapezoid_tick_cycle_counter s.cycles_per_step_event -
                 CYCLES_PER_ACCELERATION_TICK },
           false, true, true⟩
        else
          ⟨{ s with
               trapezoid_tick_cycle_counter :=
                 u32add s.trapezoid_tick_cycle_counter s.cycles_per_step_event -
                   CYCLES_PER_ACCELERATION_TICK,
               trapezoid_adjusted_rate := s.trapezoid_adjusted_rate - b.rate_delta,
               cycles_per_step_event :=
                 cyclesPerStepEvent (s.trapezoid_adjusted_rate - b.rate_delta) },
           false, false, false⟩
      else
        ⟨{ s with trapezoid_tick_cycle_counter :=
             u32add s.trapezoid_tick_cycle_counter s.cycles_per_step_event },
         false, false, false⟩
    else
      if s.step_events_completed < b.accelerate_until then
        -- Acceleration phase (lines 287-296)
        if CYCLES_PER_ACCELERATION_TICK <
            u32add s.trapezoid_tick_cycle_counter s.cycles_per_step_event then
          ⟨{ s with
               trapezoid_tick_cycle_counter :=
                 u32add s.trapezoid_tick_cycle_counter s.cycles_per_step_event -
                   CYCLES_PER_ACCELERATION_TICK,
               trapezoid_adjusted_rate := accelRate b s.trapezoid_adjusted_rate,
               cycles_per_step_event :=
                 cyclesPerStepEvent (accelRate b s.trapezoid_adjusted_rate) },
           false, false, false⟩
        else
          ⟨{ s with trapezoid_tick_cycle_counter :=
               u32add s.trapezoid_tick_cycle_counter s.cycles_per_step_event },
           false, false, false⟩
      else if b.decelerate_after ≤ s.step_events_completed then
        -- Deceleration phase (lines 297-330)
        if s.step_events_completed = b.decelerate_after then
          if s.trapezoid_adjusted_rate = b.nominal_rate then
            ⟨{ s with trapezoid_tick_cycle_counter :=
                 CYCLES_PER_ACCELERATION_TICK / 2 }, false, false, false⟩
          else
            ⟨{ s with trapezoid_tick_cycle_counter :=
                 u32sub CYCLES_PER_ACCELERATION_TICK s.trapezoid_tick_cycle_counter },
             false, false, false⟩
        else
          if CYCLES_PER_ACCELERATION_TICK <
              u32add s.trapezoid_tick_cycle_counter s.cycles_per_step_event then
            ⟨{ s with
                 trapezoid_tick_cycle_counter :=
                   u32add s.trapezoid_tick_cycle_counter s.cycles_per_step_event -
                     CYCLES_PER_ACCELERATION_TICK,
                 trapezoid_adjusted_rate :=
                   decelRate b s.min_safe_rate s.trapezoid_adjusted_rate,
                 cycles_per_step_event :=
                   cyclesPerStepEvent
                     (decelRate b s.min_safe_rate s.trapezoid_adjusted_rate) },
             false, false, false⟩
          else
            ⟨{ s with trapezoid_tick_cycle_counter :=
                 u32add s.trapezoid_tick_cycle_counter s.cycles_per_step_event },
             false, false, false⟩
      else
        -- Cruise phase (lines 331-337)
        if s.trapezoid_adjusted_rate ≠ b.nominal_rate then
          ⟨{ s with
               trapezoid_adjusted_rate := b.nominal_rate,
               cycles_per_step_event := cyclesPerStepEvent b.nominal_rate },
           false, false, false⟩
        else
          ⟨s, false, false, false⟩
  else
    -- Block finished: release current_block, discard it (lines 339-343)
    ⟨s, true, false, false⟩

/-- `bit_true(sys.execute, EXEC_CYCLE_STOP)` applied when the trapezoid
section raised the cycle-stop action. -/
def applyExec (o : TrapOut) (execute : Nat) : Nat :=
  if o.cycleStop then execute ||| EXEC_CYCLE_STOP else execute

/-- Bresenham section of `timer1_compare_interrupt` (stepper.c lines
227-252): per-axis accumulator update, step-bit emission, position
update, then `step_events_completed++`. Returns the updated stepper
state, the updated `sys.position`, and `out_bits`. -/
def bresenhamPhase (b : block_t) (s : stepper_t) (pos : PosT) :
    stepper_t × PosT × Nat :=
  let ob0 := b.direction_bits
  let cx0 := s.counter_x + (b.steps_x : Int)
  let ob1 := if 0 < cx0 then ob0 ||| (1 <<< X_STEP_BIT) else ob0
  let cx := if 0 < cx0 then cx0 - (s.event_count : Int) else cx0
  let px := if 0 < cx0 then
              (if ob1.testBit X_DIRECTION_BIT then pos.x - 1 else pos.x + 1)
            else pos.x
  let cy0 := s.counter_y + (b.steps_y : Int)
  let ob2 := if 0 < cy0 then ob1 ||| (1 <<< Y_STEP_BIT) else ob1
  let cy := if 0 < cy0 then cy0 - (s.event_count : Int) else cy0
  let py := if 0 < cy0 then
              (if ob2.testBit Y_DIRECTION_BIT then pos.y - 1 else pos.y + 1)
            else pos.y
  let cz0 := s.counter_z + (b.steps_z : Int)
  let ob3 := if 0 < cz0 then ob2 ||| (1 <<< Z_STEP_BIT) else ob2
  let cz := if 0 < cz0 then cz0 - (s.event_count : Int) else cz0
  let pz := if 0 < cz0 then
              (if ob3.testBit Z_DIRECTION_BIT then pos.z - 1 else pos.z + 1)
            else pos.z
  ({ s with counter_x := cx, counter_y := cy, counter_z := cz,
            step_events_completed := u32add s.step_events_completed 1 },
   { x := px, y := py, z := pz }, ob3)

/-- Result of the block-pop section of the step ISR (stepper.c lines
204-225). -/
structure PopOut where
  current_block : Option block_t
  st : stepper_t
  goIdle : Bool
  cycleStop : Bool
deriving DecidableEq, Repr

/-- Block-pop section of `timer1_compare_interrupt` (stepper.c lines
204-225): when there is no current block, pop the planner queue head;
during feed hold the rate, `cycles_per_step_event` and the trapezoid
tick counter are deliberately not reinitialized. -/
def popPhase (queue : List block_t) (cb : Option block_t) (state : MachState)
    (s : stepper_t) : PopOut :=
  match cb with
  | some b => ⟨some b, s, false, false⟩
  | none =>
    match queue with
    | [] => ⟨none, s, true, true⟩
    | b :: _ =>
      let s1 := if state = MachState.Cycle then
          { s with trapezoid_adjusted_rate := b.initial_rate,
                   cycles_per_step_event := cyclesPerStepEvent b.initial_rate,
                   trapezoid_tick_cycle_counter := CYCLES_PER_ACCELERATION_TICK / 2 }
        else s
      ⟨some b,
       { s1 with min_safe_rate := u32add b.rate_delta (b.rate_delta / 2),
                 counter_x := -((b.step_event_count : Int) / 2),
                 counter_y := -((b.step_event_count : Int) / 2),
                 counter_z := -((b.step_event_count : Int) / 2),
                 event_count := b.step_event_count,
                 step_events_completed := 0 },
       false, false⟩

/-- The runtime-control state touched by `st_cycle_start`,
`st_feed_hold` and `st_wake_up` (stepper.c lines 96-126, 531-546):
`sys.state`, `sys.auto_start`, and whether the step timer (TIMER1) is
enabled. -/
structure machine_t where
  state : MachState
  timerEnabled : Bool
  auto_start : Bool
deriving DecidableEq, Repr

/-- `st_wake_up` (stepper.c lines 96-126): enables the stepper driver
interrupt only when `sys.state == STATE_CYCLE` (the GPIO/pulse-time
side effects are not modelled). -/
def st_wake_up (m : machine_t) : machine_t :=
  if m.state = MachState.Cycle then { m with timerEnabled := true } else m

/-- `st_cycle_start` (stepper.c lines 531-537). -/
def st_cycle_start (m : machine_t) : machine_t :=
  if m.state = MachState.Queued then
    st_wake_up { m with state := MachState.Cycle }
  else m

/-- `st_feed_hold` (stepper.c lines 540-546). -/
def st_feed_hold (m : machine_t) : machine_t :=
  if m.state = MachState.Cycle then
    { m with state := MachState.Hold, auto_start := false }
  else m

/-- Result of `st_cycle_reinitialize` (stepper.c lines 553-567):
`replanArg` records the argument passed to `plan_cycle_reinitialize`
(a planner call, observed but not modelled further). -/
structure ReinitOut where
  replanArg : Option Nat
  st : stepper_t
  state : MachState
deriving DecidableEq, Repr

/-- `st_cycle_reinitialize` (stepper.c lines 553-567); the rate reset,
the `set_step_events_per_minute(0)` call (which installs
`cyclesPerStepEvent 0`), the tick-counter midpoint reset and the
`step_events_completed` reset are fused into one record update. -/
def st_cycle_reinitialize (cb : Option block_t) (s : stepper_t) : ReinitOut :=
  match cb with
  | some b =>
    ⟨some (u32sub b.step_event_count s.step_events_completed),
     { s with trapezoid_adjusted_rate := 0,
              cycles_per_step_event := cyclesPerStepEvent 0,
              trapezoid_tick_cycle_counter := CYCLES_PER_ACCELERATION_TICK / 2,
              step_events_completed := 0 },
     MachState.Queued⟩
  | none => ⟨none, s, MachState.Idle⟩

/-! ### report.c -/

/-- Modelled from the spec: the `STATUS_...` code values live in the
missing `report.h`; the spec fixes only that `STATUS_OK` is 0 and every
error code of the taxonomy is nonzero and distinct (mainline-grbl
numbering used). -/
def STATUS_OK : Nat := 0

/-- Modelled from the spec: see `STATUS_OK`. -/
def STATUS_BAD_NUMBER_FORMAT : Nat := 1

/-- Modelled from the spec: see `STATUS_OK`. -/
def STATUS_EXPECTED_COMMAND_LETTER : Nat := 2

/-- Modelled from the spec: see `STATUS_OK`. -/
def STATUS_UNSUPPORTED_STATEMENT : Nat := 3

/-- Modelled from the spec: see `STATUS_OK`. -/
def STATUS_ARC_RADIUS_ERROR : Nat := 4

/-- Modelled from the spec: see `STATUS_OK`. -/
def STATUS_MODAL_GROUP_VIOLATION : Nat := 5

/-- Modelled from the spec: see `STATUS_OK`. -/
def STATUS_INVALID_STATEMENT : Nat := 6

/-- Modelled from the spec: see `STATUS_OK`. -/
def STATUS_SETTING_DISABLED : Nat := 7

/-- Modelled from the spec: see `STATUS_OK`. -/
def STATUS_SETTING_VALUE_NEG : Nat := 8

/-- Modelled from the spec: see `STATUS_OK`. -/
def STATUS_SETTING_STEP_PULSE_MIN : Nat := 9

/-- Modelled from the spec: see `STATUS_OK`. -/
def STATUS_SETTING_READ_FAIL : Nat := 10

/-- Modelled from the spec: see `STATUS_OK`. -/
def STATUS_IDLE_ERROR : Nat := 11

/-- Modelled from the spec: see `STATUS_OK`. -/
def STATUS_ALARM_LOCK : Nat := 12

/-- `report_status_message` (report.c lines 49-83), as the string it
writes to the UART: `"ok\r\n"` for code 0, otherwise `"error: "`, the
switch-selected text (empty for codes outside the taxonomy), `"\r\n"`. -/
def report_status_message (status_code : Nat) : String :=
  if status_code = 0 then "ok\r\n"
  else
    "error: " ++
    (if status_code = STATUS_BAD_NUMBER_FORMAT then "Bad number format"
     else if status_code = STATUS_EXPECTED_COMMAND_LETTER then "Expected command letter"
     else if status_code = STATUS_UNSUPPORTED_STATEMENT then "Unsupported statement"
     else if status_code = STATUS_ARC_RADIUS_ERROR then "Invalid radius"
     else if status_code = STATUS_MODAL_GROUP_VIOLATION then "Modal group violation"
     else if status_code = STATUS_INVALID_STATEMENT then "Invalid statement"
     else if status_code = STATUS_SETTING_DISABLED then "Setting disabled"
     else if status_code = STATUS_SETTING_VALUE_NEG then "Value < 0.0"
     else if status_code = STATUS_SETTING_STEP_PULSE_MIN then "Value < 3 usec"
     else if status_code = STATUS_SETTING_READ_FAIL then "EEPROM read fail. Using defaults"
     else if status_code = STATUS_IDLE_ERROR then "Busy or queued"
     else if status_code = STATUS_ALARM_LOCK then "Alarm lock"
     else "") ++ "\r\n"

/-! ### Helper lemmas about `uint32_t` arithmetic -/

theorem u32add_eq_of_lt {a b : Nat} (h : a + b < u32size) : u32add a b = a + b := by
  unfold u32add u32size at *
  omega

theorem u32sub_eq_of_le {a b : Nat} (hb : b ≤ a) (ha : a < u32size) :
    u32sub a b = a - b := by
  unfold u32sub u32size at *
  omega

theorem TrapOut_mk_st (x : stepper_t) (bd gi cs : Bool) :
    (TrapOut.mk x bd gi cs).st = x := rfl

theorem TrapOut_mk_blockDone (x : stepper_t) (bd gi cs : Bool) :
    (TrapOut.mk x bd gi cs).blockDone = bd := rfl

theorem TrapOut_mk_goIdle (x : stepper_t) (bd gi cs : Bool) :
    (TrapOut.mk x bd gi cs).goIdle = gi := rfl

theorem TrapOut_mk_cycleStop (x : stepper_t) (bd gi cs : Bool) :
    (TrapOut.mk x bd gi cs).cycleStop = cs := rfl

theorem stepper_mk_counter_x (cx cy cz : Int) (ec sec cps ttcc tar msr : Nat) :
    (stepper_t.mk cx cy cz ec sec cps ttcc tar msr).counter_x = cx := rfl

theorem stepper_mk_counter_y (cx cy cz : Int) (ec sec cps ttcc tar msr : Nat) :
    (stepper_t.mk cx cy cz ec sec cps ttcc tar msr).counter_y = cy := rfl

theorem stepper_mk_counter_z (cx cy cz : Int) (ec sec cps ttcc tar msr : Nat) :
    (stepper_t.mk cx cy cz ec sec cps ttcc tar msr).counter_z = cz := rfl

theorem stepper_mk_event_count (cx cy cz : Int) (ec sec cps ttcc tar msr : Nat) :
    (stepper_t.mk cx cy cz ec sec cps ttcc tar msr).event_count = ec := rfl

theorem stepper_mk_completed (cx cy cz : Int) (ec sec cps ttcc tar msr : Nat) :
    (stepper_t.mk cx cy cz ec sec cps ttcc tar msr).step_events_completed = sec := rfl

theorem stepper_mk_cps (cx cy cz : Int) (ec sec cps ttcc tar msr : Nat) :
    (stepper_t.mk cx cy cz ec sec cps ttcc tar msr).cycles_per_step_event = cps := rfl

theorem stepper_mk_ttcc (cx cy cz : Int) (ec sec cps ttcc tar msr : Nat) :
    (stepper_t.mk cx cy cz ec sec cps ttcc tar msr).trapezoid_tick_cycle_counter = ttcc := rfl

theorem stepper_mk_rate (cx cy cz : Int) (ec sec cps ttcc tar msr : Nat) :
    (stepper_t.mk cx cy cz ec sec cps ttcc tar msr).trapezoid_adjusted_rate = tar := rfl

theorem stepper_mk_msr (cx cy cz : Int) (ec sec cps ttcc tar msr : Nat) :
    (stepper_t.mk cx cy cz ec sec cps ttcc tar msr).min_safe_rate = msr := rfl

theorem set_spm_rate (spm : Nat) (s : stepper_t) :
    (set_step_events_per_minute spm s).trapezoid_adjusted_rate =
      s.trapezoid_adjusted_rate := rfl

theorem set_spm_ttcc (spm : Nat) (s : stepper_t) :
    (set_step_events_per_minute spm s).trapezoid_tick_cycle_counter =
      s.trapezoid_tick_cycle_counter := rfl

theorem set_spm_counter_x (spm : Nat) (s : stepper_t) :
    (set_step_events_per_minute spm s).counter_x = s.counter_x := rfl

theorem set_spm_counter_y (spm : Nat) (s : stepper_t) :
    (set_step_events_per_minute spm s).counter_y = s.counter_y := rfl

theorem set_spm_counter_z (spm : Nat) (s : stepper_t) :
    (set_step_events_per_minute spm s).counter_z = s.counter_z := rfl

theorem set_spm_msr (spm : Nat) (s : stepper_t) :
    (set_step_events_per_minute spm s).min_safe_rate = s.min_safe_rate := rfl

theorem set_spm_completed (spm : Nat) (s : stepper_t) :
    (set_step_events_per_minute spm s).step_events_completed =
      s.step_events_completed := rfl

theorem testBit_or_shift (d : Nat) (k j : Nat) (h : (1 <<< k).testBit j = false) :
    (d ||| 1 <<< k).testBit j = d.testBit j := by
  simp [Nat.testBit_or, h]

theorem testBit_or_shift_self (d : Nat) (k : Nat) :
    (d ||| 1 <<< k).testBit k = true := by
  simp [Nat.testBit_or, Nat.one_shiftLeft, Nat.testBit_two_pow_self]

theorem iterTrap_ttcc_pos (s : stepper_t) (htick : tickFires s) :
    (iterTrapCounter s).trapezoid_tick_cycle_counter =
      u32add s.trapezoid_tick_cycle_counter s.cycles_per_step_event -
        CYCLES_PER_ACCELERATION_TICK := by
  simp only [iterTrapCounter]
  rw [if_pos htick]

theorem iterTrap_ttcc_neg (s : stepper_t) (htick : ¬ tickFires s) :
    (iterTrapCounter s).trapezoid_tick_cycle_counter =
      u32add s.trapezoid_tick_cycle_counter s.cycles_per_step_event := by
  simp only [iterTrapCounter]
  rw [if_neg htick]

theorem trapHold_tick_idle (b : block_t) (s : stepper_t)
    (hcount : s.step_events_completed < b.step_event_count)
    (htick : tickFires s) (hle : s.trapezoid_adjusted_rate ≤ b.rate_delta) :
    trapezoidPhase MachState.Hold b s =
      ⟨{ s with trapezoid_tick_cycle_counter :=
           u32add s.trapezoid_tick_cycle_counter s.cycles_per_step_event -
             CYCLES_PER_ACCELERATION_TICK },
       false, true, true⟩ := by
  unfold trapezoidPhase
  rw [if_pos hcount, if_pos rfl, if_pos htick, if_pos hle]

theorem trapHold_tick_sub (b : block_t) (s : stepper_t)
    (hcount : s.step_events_completed < b.step_event_count)
    (htick : tickFires s) (hgt : b.rate_delta < s.trapezoid_adjusted_rate) :
    trapezoidPhase MachState.Hold b s =
      ⟨{ s with
           trapezoid_tick_cycle_counter :=
             u32add s.trapezoid_tick_cycle_counter s.cycles_per_step_event -
               CYCLES_PER_ACCELERATION_TICK,
           trapezoid_adjusted_rate := s.trapezoid_adjusted_rate - b.rate_delta,
           cycles_per_step_event :=
             cyclesPerStepEvent (s.trapezoid_adjusted_rate - b.rate_delta) },
       false, false, false⟩ := by
  unfold trapezoidPhase
  rw [if_pos hcount, if_pos rfl, if_pos htick, if_neg (Nat.not_le.mpr hgt)]

theorem trapHold_notick (b : block_t) (s : stepper_t)
    (hcount : s.step_events_completed < b.step_event_count)
    (htick : ¬ tickFires s) :
    trapezoidPhase MachState.Hold b s =
      ⟨{ s with trapezoid_tick_cycle_counter :=
           u32add s.trapezoid_tick_cycle_counter s.cycles_per_step_event },
       false, false, false⟩ := by
  unfold trapezoidPhase
  rw [if_pos hcount, if_pos rfl, if_neg htick]

/-! ### Claim theorems -/

/-- C9: `report_status_message` with status code 0 prints exactly
`"ok\r\n"`, and with each nonzero code of the error taxonomy prints
exactly one `"error: <text>\r\n"` line, the text being the message of
that code (`"Busy or queued"` for the busy-or-queued error and
`"Alarm lock"` for the alarm-lock error). -/
theorem C9_status_messages :
    report_status_message STATUS_OK = "ok\r\n" ∧
    report_status_message STATUS_BAD_NUMBER_FORMAT = "error: Bad number format\r\n" ∧
    report_status_message STATUS_EXPECTED_COMMAND_LETTER = "error: Expected command letter\r\n" ∧
    report_status_message STATUS_UNSUPPORTED_STATEMENT = "error: Unsupported statement\r\n" ∧
    report_status_message STATUS_ARC_RADIUS_ERROR = "error: Invalid radius\r\n" ∧
    report_status_message STATUS_MODAL_GROUP_VIOLATION = "error: Modal group violation\r\n" ∧
    report_status_message STATUS_INVALID_STATEMENT = "error: Invalid statement\r\n" ∧
    report_status_message STATUS_SETTING_DISABLED = "error: Setting disabled\r\n" ∧
    report_status_message STATUS_SETTING_VALUE_NEG = "error: Value < 0.0\r\n" ∧
    report_status_message STATUS_SETTING_STEP_PULSE_MIN = "error: Value < 3 usec\r\n" ∧
    report_status_message STATUS_SETTING_READ_FAIL =
      "error: EEPROM read fail. Using defaults\r\n" ∧
    report_status_message STATUS_IDLE_ERROR = "error: Busy or queued\r\n" ∧
    report_status_message STATUS_ALARM_LOCK = "error: Alarm lock\r\n" := by
  repeat' constructor

/-- C5 counterexample: with the machine in the Idle state, a cycle-start
event does not move it to Cycle — `st_cycle_start` leaves the Idle state
(and everything else) unchanged, contradicting the claimed
Idle → Cycle transition. -/
theorem C5_counterexample :
    st_cycle_start ⟨MachState.Idle, false, false⟩ = ⟨MachState.Idle, false, false⟩ ∧
    (st_cycle_start ⟨MachState.Idle, false, false⟩).state ≠ MachState.Cycle := by
  constructor
  · rfl
  · decide

/-- C5 (amended): on a cycle-start event `st_cycle_start` moves the
machine from Queued to Cycle and wakes the stepper timer; in every other
state — including Idle — it leaves the machine unchanged. It does not
itself inspect the block ring; non-emptiness is the callers' Queued-state
invariant. -/
theorem C5_cycle_start (m : machine_t) :
    st_cycle_start m =
      if m.state = MachState.Queued then
        { m with state := MachState.Cycle, timerEnabled := true }
      else m := by
  unfold st_cycle_start st_wake_up
  by_cases h : m.state = MachState.Queued <;> simp [h]

/-- C6: with a partially executed current block, `st_cycle_reinitialize`
passes `step_event_count − step_events_completed` to
`plan_cycle_reinitialize`, resets the trapezoid rate to a standstill
(rate 0, floored timer period) and the tick counter to the midpoint,
zeroes `step_events_completed`, and sets the state to Queued; with no
current block it sets the state to Idle. -/
theorem C6_cycle_reinitialize (b : block_t) (s : stepper_t)
    (hle : s.step_events_completed ≤ b.step_event_count)
    (hlt : b.step_event_count < u32size) :
    ( st_cycle_reinitialize (some b) s).replanArg =
      some (b.step_event_count - s.step_events_completed) ∧
    ( st_cycle_reinitialize (some b) s).st.trapezoid_adjusted_rate = 0 ∧
    ( st_cycle_reinitialize (some b) s).st.cycles_per_step_event =
      (F_CPU / MINIMUM_STEPS_PER_MINUTE) * 60 ∧
    ( st_cycle_reinitialize (some b) s).st.trapezoid_tick_cycle_counter =
      CYCLES_PER_ACCELERATION_TICK / 2 ∧
    ( st_cycle_reinitialize (some b) s).st.step_events_completed = 0 ∧
    ( st_cycle_reinitialize (some b) s).state = MachState.Queued ∧
    (∀ s' : stepper_t, ( st_cycle_reinitialize none s').state = MachState.Idle) := by
  refine ⟨?_, rfl, rfl, rfl, rfl, rfl, fun _ => rfl⟩
  unfold st_cycle_reinitialize
  simp [u32sub_eq_of_le hle hlt]

/-- C6 witness. -/
theorem C6_cycle_reinitialize_witness :
    ( st_cycle_reinitialize
        (some { steps_x := 100, steps_y := 0, steps_z := 0, step_event_count := 100,
                direction_bits := 0, nominal_rate := 6000, initial_rate := 1000,
                final_rate := 0, rate_delta := 40, accelerate_until := 30,
                decelerate_after := 70 })
        { counter_x := -10, counter_y := -10, counter_z := -10, event_count := 100,
          step_events_completed := 40, cycles_per_step_event := 100000,
          trapezoid_tick_cycle_counter := 7, trapezoid_adjusted_rate := 2600,
          min_safe_rate := 60 }).replanArg = some 60 :=
  ( C6_cycle_reinitialize _ _ (by decide) (by decide)).1

/-- C10: `set_step_events_per_minute` floors its argument at the
positive constant `MINIMUM_STEPS_PER_MINUTE` before computing
`(F_CPU/steps_per_minute)*60`, so the divisor is never zero and the
installed timer period never exceeds the floor's period; in particular
the rate-0 call made by `st_cycle_reinitialize` installs exactly the
floor period. -/
theorem C10_step_rate_floor (spm : Nat) (s : stepper_t) :
    0 < MINIMUM_STEPS_PER_MINUTE ∧
    MINIMUM_STEPS_PER_MINUTE ≤ max spm MINIMUM_STEPS_PER_MINUTE ∧
    (set_step_events_per_minute spm s).cycles_per_step_event =
      (F_CPU / max spm MINIMUM_STEPS_PER_MINUTE) * 60 ∧
    (set_step_events_per_minute spm s).cycles_per_step_event ≤
      (F_CPU / MINIMUM_STEPS_PER_MINUTE) * 60 ∧
    (∀ (b : block_t) (s' : stepper_t),
      ( st_cycle_reinitialize (some b) s').st.cycles_per_step_event =
        (F_CPU / MINIMUM_STEPS_PER_MINUTE) * 60) := by
  refine ⟨by decide, Nat.le_max_right _ _, ?_, ?_, fun _ _ => rfl⟩
  · unfold set_step_events_per_minute cyclesPerStepEvent config_step_timer
    rw [stepper_mk_cps]
    rcases Nat.lt_or_ge spm MINIMUM_STEPS_PER_MINUTE with h | h
    · rw [if_pos h, Nat.max_eq_right (Nat.le_of_lt h)]
    · rw [if_neg (Nat.not_lt.mpr h), Nat.max_eq_left h]
  · unfold set_step_events_per_minute cyclesPerStepEvent config_step_timer
    rw [stepper_mk_cps]
    have hdiv : F_CPU / (if spm < MINIMUM_STEPS_PER_MINUTE
        then MINIMUM_STEPS_PER_MINUTE else spm) ≤ F_CPU / MINIMUM_STEPS_PER_MINUTE := by
      rcases Nat.lt_or_ge spm MINIMUM_STEPS_PER_MINUTE with h | h
      · rw [if_pos h]
      · rw [if_neg (Nat.not_lt.mpr h)]
        exact Nat.div_le_div_left h (by decide)
    exact Nat.mul_le_mul_right 60 hdiv

/-- C8: on the ISR firing at which `step_events_completed` has reached
the block's `step_event_count`, the trapezoid section releases
`current_block` and discards it, leaving every stepper-state field (rate,
Bresenham accumulators, counters) untouched; a subsequent firing with no
current block pops the next queued block. -/
theorem C8_block_completion (state : MachState) (b : block_t) (s : stepper_t) :
    (b.step_event_count ≤ s.step_events_completed →
      trapezoidPhase state b s = ⟨s, true, false, false⟩) ∧
    (∀ (b' : block_t) (q : List block_t) (s' : stepper_t),
      (popPhase (b' :: q) none state s').current_block = some b') := by
  constructor
  · intro h
    unfold trapezoidPhase
    rw [if_neg (Nat.not_lt.mpr h)]
  · intro b' q s'
    unfold popPhase
    by_cases h : state = MachState.Cycle <;> simp [h]

/-- C8 witness. -/
theorem C8_block_completion_witness :
    trapezoidPhase MachState.Cycle
      { steps_x := 10, steps_y := 4, steps_z := 0, step_event_count := 10,
        direction_bits := 0, nominal_rate := 6000, initial_rate := 1000,
        final_rate := 0, rate_delta := 40, accelerate_until := 3,
        decelerate_after := 7 }
      { counter_x := 3, counter_y := -2, counter_z := -5, event_count := 10,
        step_events_completed := 10, cycles_per_step_event := 100000,
        trapezoid_tick_cycle_counter := 7, trapezoid_adjusted_rate := 80,
        min_safe_rate := 60 } =
    ⟨{ counter_x := 3, counter_y := -2, counter_z := -5, event_count := 10,
       step_events_completed := 10, cycles_per_step_event := 100000,
       trapezoid_tick_cycle_counter := 7, trapezoid_adjusted_rate := 80,
       min_safe_rate := 60 }, true, false, false⟩ :=
  (C8_block_completion _ _ _).1 (by decide)

/-- C3: on every step ISR firing with a current block, each axis
accumulator gains the block's per-axis step count; whenever the result is
positive the axis' step bit is set in the output bits, the accumulator
additionally loses `event_count`, and `sys.position` of that axis moves
by −1 when the block's direction bit is set and by +1 otherwise; then
`step_events_completed` grows by exactly 1. -/
theorem C3_bresenham_tracer (b : block_t) (s : stepper_t) (pos : PosT) :
    ((bresenhamPhase b s pos).1.counter_x =
      if 0 < s.counter_x + (b.steps_x : Int)
      then s.counter_x + (b.steps_x : Int) - (s.event_count : Int)
      else s.counter_x + (b.steps_x : Int)) ∧
    (0 < s.counter_x + (b.steps_x : Int) →
      ((bresenhamPhase b s pos).2.2).testBit X_STEP_BIT = true) ∧
    ((bresenhamPhase b s pos).2.1.x =
      if 0 < s.counter_x + (b.steps_x : Int)
      then (if b.direction_bits.testBit X_DIRECTION_BIT then pos.x - 1 else pos.x + 1)
      else pos.x) ∧
    ((bresenhamPhase b s pos).1.counter_y =
      if 0 < s.counter_y + (b.steps_y : Int)
      then s.counter_y + (b.steps_y : Int) - (s.event_count : Int)
      else s.counter_y + (b.steps_y : Int)) ∧
    (0 < s.counter_y + (b.steps_y : Int) →
      ((bresenhamPhase b s pos).2.2).testBit Y_STEP_BIT = true) ∧
    ((bresenhamPhase b s pos).2.1.y =
      if 0 < s.counter_y + (b.steps_y : Int)
      then (if b.direction_bits.testBit Y_DIRECTION_BIT then pos.y - 1 else pos.y + 1)
      else pos.y) ∧
    ((bresenhamPhase b s pos).1.counter_z =
      if 0 < s.counter_z + (b.steps_z : Int)
      then s.counter_z + (b.steps_z : Int) - (s.event_count : Int)
      else s.counter_z + (b.steps_z : Int)) ∧
    (0 < s.counter_z + (b.steps_z : Int) →
      ((bresenhamPhase b s pos).2.2).testBit Z_STEP_BIT = true) ∧
    ((bresenhamPhase b s pos).2.1.z =
      if 0 < s.counter_z + (b.steps_z : Int)
      then (if b.direction_bits.testBit Z_DIRECTION_BIT then pos.z - 1 else pos.z + 1)
      else pos.z) ∧
    (s.step_events_completed + 1 < u32size →
      (bresenhamPhase b s pos).1.step_events_completed =
        s.step_events_completed + 1) := by
  unfold bresenhamPhase
  by_cases hx : 0 < s.counter_x + (b.steps_x : Int) <;>
    by_cases hy : 0 < s.counter_y + (b.steps_y : Int) <;>
      by_cases hz : 0 < s.counter_z + (b.steps_z : Int) <;>
        simp [hx, hy, hz, testBit_or_shift_self, u32add_eq_of_lt,
              testBit_or_shift _ X_STEP_BIT X_DIRECTION_BIT (by decide),
              testBit_or_shift _ Y_STEP_BIT X_DIRECTION_BIT (by decide),
              testBit_or_shift _ Z_STEP_BIT X_DIRECTION_BIT (by decide),
              testBit_or_shift _ X_STEP_BIT Y_DIRECTION_BIT (by decide),
              testBit_or_shift _ Y_STEP_BIT Y_DIRECTION_BIT (by decide),
              testBit_or_shift _ Z_STEP_BIT Y_DIRECTION_BIT (by decide),
              testBit_or_shift _ X_STEP_BIT Z_DIRECTION_BIT (by decide),
              testBit_or_shift _ Y_STEP_BIT Z_DIRECTION_BIT (by decide),
              testBit_or_shift _ Z_STEP_BIT Z_DIRECTION_BIT (by decide),
              testBit_or_shift _ Y_STEP_BIT X_STEP_BIT (by decide),
              testBit_or_shift _ Z_STEP_BIT X_STEP_BIT (by decide),
              testBit_or_shift _ Z_STEP_BIT Y_STEP_BIT (by decide)] <;>
          exact fun h => u32add_eq_of_lt h

/-- C3 witness. -/
theorem C3_bresenham_tracer_witness :
    ((bresenhamPhase
        { steps_x := 10, steps_y := 4, steps_z := 0, step_event_count := 10,
          direction_bits := 32, nominal_rate := 6000, initial_rate := 1000,
          final_rate := 0, rate_delta := 40, accelerate_until := 3,
          decelerate_after := 7 }
        { counter_x := -3, counter_y := -5, counter_z := -5, event_count := 10,
          step_events_completed := 4, cycles_per_step_event := 100000,
          trapezoid_tick_cycle_counter := 7, trapezoid_adjusted_rate := 1080,
          min_safe_rate := 60 }
        { x := 20, y := -7, z := 0 }).2.2).testBit X_STEP_BIT = true :=
  ((C3_bresenham_tracer _ _ _).2.1) (by decide)

/-- C7: outside feed hold, while `step_events_completed` is below
`accelerate_until` every firing acceleration tick adds `rate_delta` to
the adjusted rate, clamped to `nominal_rate` from above; between
`accelerate_until` and `decelerate_after` the firing leaves the adjusted
rate exactly equal to `nominal_rate`. -/
theorem C7_accel_and_cruise (state : MachState) (b : block_t) (s : stepper_t)
    (hstate : state ≠ MachState.Hold)
    (hcount : s.step_events_completed < b.step_event_count) :
    (s.step_events_completed < b.accelerate_until →
      tickFires s →
      s.trapezoid_adjusted_rate + b.rate_delta < u32size →
      (trapezoidPhase state b s).st.trapezoid_adjusted_rate =
        min (s.trapezoid_adjusted_rate + b.rate_delta) b.nominal_rate) ∧
    (b.accelerate_until ≤ s.step_events_completed →
      s.step_events_completed < b.decelerate_after →
      (trapezoidPhase state b s).st.trapezoid_adjusted_rate = b.nominal_rate) := by
  constructor
  · intro hacc htick hbound
    unfold trapezoidPhase
    rw [if_pos hcount, if_neg hstate, if_pos hacc, if_pos htick, TrapOut_mk_st,
        stepper_mk_rate]
    unfold accelRate
    rw [u32add_eq_of_lt hbound]
    rcases le_or_lt b.nominal_rate (s.trapezoid_adjusted_rate + b.rate_delta) with h | h
    · rw [if_pos h, Nat.min_eq_right h]
    · rw [if_neg (Nat.not_le.mpr h), Nat.min_eq_left (Nat.le_of_lt h)]
  · intro h1 h2
    unfold trapezoidPhase
    rw [if_pos hcount, if_neg hstate, if_neg (Nat.not_lt.mpr h1),
        if_neg (Nat.not_le.mpr h2)]
    by_cases h : s.trapezoid_adjusted_rate = b.nominal_rate
    · rw [if_neg (not_not_intro h), TrapOut_mk_st]
      exact h
    · rw [if_pos h, TrapOut_mk_st, stepper_mk_rate]

/-- C7 witness. -/
theorem C7_accel_and_cruise_witness :
    (trapezoidPhase MachState.Cycle
      { steps_x := 10, steps_y := 0, steps_z := 0, step_event_count := 100,
        direction_bits := 0, nominal_rate := 6000, initial_rate := 1000,
        final_rate := 0, rate_delta := 40, accelerate_until := 30,
        decelerate_after := 70 }
      { counter_x := 0, counter_y := 0, counter_z := 0, event_count := 100,
        step_events_completed := 5, cycles_per_step_event := 100000,
        trapezoid_tick_cycle_counter := 300000, trapezoid_adjusted_rate := 1000,
        min_safe_rate := 60 }).st.trapezoid_adjusted_rate =
      min (1000 + 40) 6000 ∧
    (trapezoidPhase MachState.Cycle
      { steps_x := 10, steps_y := 0, steps_z := 0, step_event_count := 100,
        direction_bits := 0, nominal_rate := 6000, initial_rate := 1000,
        final_rate := 0, rate_delta := 40, accelerate_until := 30,
        decelerate_after := 70 }
      { counter_x := 0, counter_y := 0, counter_z := 0, event_count := 100,
        step_events_completed := 45, cycles_per_step_event := 100000,
        trapezoid_tick_cycle_counter := 300000, trapezoid_adjusted_rate := 5990,
        min_safe_rate := 60 }).st.trapezoid_adjusted_rate = 6000 :=
  ⟨(C7_accel_and_cruise _ _ _ (by decide) (by decide)).1
      (by decide) (by decide) (by decide),
   (C7_accel_and_cruise _ _ _ (by decide) (by decide)).2
      (by decide) (by decide)⟩

/-- C4: outside feed hold, on the firing where `step_events_completed`
equals `decelerate_after` the tick counter is reset to
`CYCLES_PER_ACCELERATION_TICK/2` when the rate equals `nominal_rate`
(trapezoid profile) and to `CYCLES_PER_ACCELERATION_TICK` minus the
current counter otherwise (triangle profile), the rate itself untouched;
on each later firing tick, if the rate exceeds `min_safe_rate` then
`rate_delta` is subtracted, otherwise the rate is halved, and the result
is clamped to `final_rate` from below; `min_safe_rate` is initialized at
block pop as `rate_delta + (rate_delta >> 1)`. -/
theorem C4_deceleration_tail (state : MachState) (b : block_t) (s : stepper_t)
    (hstate : state ≠ MachState.Hold)
    (hcount : s.step_events_completed < b.step_event_count)
    (hacc : b.accelerate_until ≤ s.step_events_completed) :
    (s.step_events_completed = b.decelerate_after →
      s.trapezoid_tick_cycle_counter ≤ CYCLES_PER_ACCELERATION_TICK →
      (trapezoidPhase state b s).st.trapezoid_tick_cycle_counter =
        (if s.trapezoid_adjusted_rate = b.nominal_rate
         then CYCLES_PER_ACCELERATION_TICK / 2
         else CYCLES_PER_ACCELERATION_TICK - s.trapezoid_tick_cycle_counter) ∧
      (trapezoidPhase state b s).st.trapezoid_adjusted_rate =
        s.trapezoid_adjusted_rate) ∧
    (b.decelerate_after < s.step_events_completed →
      tickFires s →
      s.min_safe_rate = b.rate_delta + b.rate_delta / 2 →
      s.trapezoid_adjusted_rate < u32size →
      (trapezoidPhase state b s).st.trapezoid_adjusted_rate =
        max b.final_rate
          (if s.min_safe_rate < s.trapezoid_adjusted_rate
           then s.trapezoid_adjusted_rate - b.rate_delta
           else s.trapezoid_adjusted_rate / 2)) ∧
    (∀ (bq : block_t) (q : List block_t) (st0 : MachState) (s0 : stepper_t),
      bq.rate_delta + bq.rate_delta / 2 < u32size →
      (popPhase (bq :: q) none st0 s0).st.min_safe_rate =
        bq.rate_delta + bq.rate_delta / 2) := by
  refine ⟨?_, ?_, ?_⟩
  · intro heq htc
    unfold trapezoidPhase
    rw [if_pos hcount, if_neg hstate, if_neg (Nat.not_lt.mpr hacc),
        if_pos (Nat.le_of_eq heq.symm), if_pos heq]
    by_cases h : s.trapezoid_adjusted_rate = b.nominal_rate
    · rw [if_pos h, if_pos h, TrapOut_mk_st, stepper_mk_ttcc, stepper_mk_rate]
      exact ⟨rfl, rfl⟩
    · rw [if_neg h, if_neg h, TrapOut_mk_st, stepper_mk_ttcc, stepper_mk_rate,
          u32sub_eq_of_le htc (by decide)]
      exact ⟨rfl, rfl⟩
  · intro hgt htick hmin hrate
    unfold trapezoidPhase
    rw [if_pos hcount, if_neg hstate, if_neg (Nat.not_lt.mpr hacc),
        if_pos (Nat.le_of_lt hgt), if_neg (Nat.ne_of_gt hgt), if_pos htick,
        TrapOut_mk_st, stepper_mk_rate]
    unfold decelRate decelRate0
    by_cases h : s.min_safe_rate < s.trapezoid_adjusted_rate
    · rw [if_pos h, u32sub_eq_of_le (by omega) hrate, if_pos h]
      rcases Nat.lt_or_ge (s.trapezoid_adjusted_rate - b.rate_delta) b.final_rate
        with h2 | h2
      · rw [if_pos h2]
        omega
      · rw [if_neg (Nat.not_lt.mpr h2)]
        omega
    · rw [if_neg h, if_neg h]
      rcases Nat.lt_or_ge (s.trapezoid_adjusted_rate / 2) b.final_rate with h2 | h2
      · rw [if_pos h2]
        omega
      · rw [if_neg (Nat.not_lt.mpr h2)]
        omega
  · intro bq q st0 s0 hlt
    unfold popPhase
    by_cases h : st0 = MachState.Cycle <;> simp [h, u32add_eq_of_lt hlt]

/-- C4 witness. -/
theorem C4_deceleration_tail_witness :
    (trapezoidPhase MachState.Cycle
      { steps_x := 10, steps_y := 0, steps_z := 0, step_event_count := 100,
        direction_bits := 0, nominal_rate := 6000, initial_rate := 1000,
        final_rate := 900, rate_delta := 40, accelerate_until := 30,
        decelerate_after := 70 }
      { counter_x := 0, counter_y := 0, counter_z := 0, event_count := 100,
        step_events_completed := 70, cycles_per_step_event := 100000,
        trapezoid_tick_cycle_counter := 123456, trapezoid_adjusted_rate := 5000,
        min_safe_rate := 60 }).st.trapezoid_tick_cycle_counter =
      CYCLES_PER_ACCELERATION_TICK - 123456 ∧
    (trapezoidPhase MachState.Cycle
      { steps_x := 10, steps_y := 0, steps_z := 0, step_event_count := 100,
        direction_bits := 0, nominal_rate := 6000, initial_rate := 1000,
        final_rate := 900, rate_delta := 40, accelerate_until := 30,
        decelerate_after := 70 }
      { counter_x := 0, counter_y := 0, counter_z := 0, event_count := 100,
        step_events_completed := 75, cycles_per_step_event := 100000,
        trapezoid_tick_cycle_counter := 300000, trapezoid_adjusted_rate := 5000,
        min_safe_rate := 60 }).st.trapezoid_adjusted_rate =
      max 900 (if (60 : Nat) < 5000 then 5000 - 40 else 5000 / 2) ∧
    (popPhase
      [{ steps_x := 10, steps_y := 0, steps_z := 0, step_event_count := 100,
         direction_bits := 0, nominal_rate := 6000, initial_rate := 1000,
         final_rate := 900, rate_delta := 40, accelerate_until := 30,
         decelerate_after := 70 }] none MachState.Cycle
      { counter_x := 0, counter_y := 0, counter_z := 0, event_count := 100,
        step_events_completed := 75, cycles_per_step_event := 100000,
        trapezoid_tick_cycle_counter := 300000, trapezoid_adjusted_rate := 5000,
        min_safe_rate := 60 }).st.min_safe_rate = 40 + 40 / 2 := by
  refine ⟨?_, ?_, ?_⟩
  · exact ((C4_deceleration_tail _ _ _ (by decide) (by decide) (by decide)).1
      (by decide) (by decide)).1.trans (by decide)
  · exact (C4_deceleration_tail MachState.Cycle _ _ (by decide) (by decide)
      (by decide)).2.1 (by decide) (by decide) (by decide) (by decide)
  · exact (C4_deceleration_tail MachState.Cycle
      { steps_x := 10, steps_y := 0, steps_z := 0, step_event_count := 100,
        direction_bits := 0, nominal_rate := 6000, initial_rate := 1000,
        final_rate := 900, rate_delta := 40, accelerate_until := 30,
        decelerate_after := 70 }
      { counter_x := 0, counter_y := 0, counter_z := 0, event_count := 100,
        step_events_completed := 75, cycles_per_step_event := 100000,
        trapezoid_tick_cycle_counter := 300000, trapezoid_adjusted_rate := 5000,
        min_safe_rate := 60 } (by decide) (by decide) (by decide)).2.2
      _ [] _ _ (by decide)

/-- C1 counterexample: a half-step reduction tick of the deceleration
tail (adjusted rate 5, `rate_delta` 4, `min_safe_rate` 6 = 1.5·4, no
clamp) changes the rate from 5 to 5 >> 1 = 2, a change of 3, which does
not equal `adjusted_rate/2` = 2 — the half-step change is
`adjusted_rate − adjusted_rate/2`, the rounded-up half. -/
theorem C1_counterexample :
    tickFires
      { counter_x := 0, counter_y := 0, counter_z := 0, event_count := 100,
        step_events_completed := 5, cycles_per_step_event := 2,
        trapezoid_tick_cycle_counter := 319999, trapezoid_adjusted_rate := 5,
        min_safe_rate := 6 } ∧
    (trapezoidPhase MachState.Cycle
      { steps_x := 10, steps_y := 0, steps_z := 0, step_event_count := 100,
        direction_bits := 0, nominal_rate := 100, initial_rate := 6,
        final_rate := 0, rate_delta := 4, accelerate_until := 0,
        decelerate_after := 1 }
      { counter_x := 0, counter_y := 0, counter_z := 0, event_count := 100,
        step_events_completed := 5, cycles_per_step_event := 2,
        trapezoid_tick_cycle_counter := 319999, trapezoid_adjusted_rate := 5,
        min_safe_rate := 6 }).st.trapezoid_adjusted_rate = 5 / 2 ∧
    (5 : Nat) -
      (trapezoidPhase MachState.Cycle
        { steps_x := 10, steps_y := 0, steps_z := 0, step_event_count := 100,
          direction_bits := 0, nominal_rate := 100, initial_rate := 6,
          final_rate := 0, rate_delta := 4, accelerate_until := 0,
          decelerate_after := 1 }
        { counter_x := 0, counter_y := 0, counter_z := 0, event_count := 100,
          step_events_completed := 5, cycles_per_step_event := 2,
          trapezoid_tick_cycle_counter := 319999, trapezoid_adjusted_rate := 5,
          min_safe_rate := 6 }).st.trapezoid_adjusted_rate ≠ (5 : Nat) / 2 := by
  refine ⟨by decide, by decide, by decide⟩

/-- C1 (amended): at every firing acceleration tick of an executing
block (`min_safe_rate` holding its initialization value
`rate_delta + rate_delta/2`), the absolute change of
`trapezoid_adjusted_rate` is at most `rate_delta` — in the feed-hold
branch, in the acceleration phase (rate at most `nominal_rate`), and in
the deceleration tail (rate at least `final_rate`); in the deceleration
tail's half-step reductions the new rate is `adjusted_rate >> 1`, so the
change is `adjusted_rate − adjusted_rate/2` (or less under the
`final_rate` clamp), itself at most `rate_delta` because halving only
happens when the rate is at most `min_safe_rate`. -/
theorem C1_acceleration_cap (state : MachState) (b : block_t) (s : stepper_t)
    (hcount : s.step_events_completed < b.step_event_count)
    (hmin : s.min_safe_rate = b.rate_delta + b.rate_delta / 2)
    (htick : tickFires s) :
    (state = MachState.Hold →
      (trapezoidPhase state b s).st.trapezoid_adjusted_rate ≤
        s.trapezoid_adjusted_rate ∧
      s.trapezoid_adjusted_rate -
        (trapezoidPhase state b s).st.trapezoid_adjusted_rate ≤ b.rate_delta) ∧
    (state ≠ MachState.Hold →
      s.step_events_completed < b.accelerate_until →
      s.trapezoid_adjusted_rate ≤ b.nominal_rate →
      s.trapezoid_adjusted_rate + b.rate_delta < u32size →
      s.trapezoid_adjusted_rate ≤
        (trapezoidPhase state b s).st.trapezoid_adjusted_rate ∧
      (trapezoidPhase state b s).st.trapezoid_adjusted_rate -
        s.trapezoid_adjusted_rate ≤ b.rate_delta) ∧
    (state ≠ MachState.Hold →
      b.accelerate_until ≤ s.step_events_completed →
      b.decelerate_after < s.step_events_completed →
      b.final_rate ≤ s.trapezoid_adjusted_rate →
      s.trapezoid_adjusted_rate < u32size →
      (trapezoidPhase state b s).st.trapezoid_adjusted_rate ≤
        s.trapezoid_adjusted_rate ∧
      s.trapezoid_adjusted_rate -
        (trapezoidPhase state b s).st.trapezoid_adjusted_rate ≤ b.rate_delta ∧
      (s.trapezoid_adjusted_rate ≤ s.min_safe_rate →
        b.final_rate ≤ s.trapezoid_adjusted_rate / 2 →
        (trapezoidPhase state b s).st.trapezoid_adjusted_rate =
          s.trapezoid_adjusted_rate / 2)) := by
  refine ⟨?_, ?_, ?_⟩
  · intro hh
    unfold trapezoidPhase
    rw [if_pos hcount, if_pos hh, if_pos htick]
    rcases le_or_lt s.trapezoid_adjusted_rate b.rate_delta with h | h
    · rw [if_pos h, TrapOut_mk_st, stepper_mk_rate]
      exact ⟨Nat.le_refl _, by omega⟩
    · rw [if_neg (Nat.not_le.mpr h), TrapOut_mk_st, stepper_mk_rate]
      exact ⟨Nat.sub_le _ _, by omega⟩
  · intro hh hacc hle hbound
    unfold trapezoidPhase
    rw [if_pos hcount, if_neg hh, if_pos hacc, if_pos htick, TrapOut_mk_st]
    have hr : ({ s with
         trapezoid_tick_cycle_counter :=
           u32add s.trapezoid_tick_cycle_counter s.cycles_per_step_event -
             CYCLES_PER_ACCELERATION_TICK,
         trapezoid_adjusted_rate := accelRate b s.trapezoid_adjusted_rate,
         cycles_per_step_event :=
           cyclesPerStepEvent (accelRate b s.trapezoid_adjusted_rate) } :
       stepper_t).trapezoid_adjusted_rate =
        accelRate b s.trapezoid_adjusted_rate := rfl
    rw [hr]
    unfold accelRate
    rw [u32add_eq_of_lt hbound]
    rcases le_or_lt b.nominal_rate (s.trapezoid_adjusted_rate + b.rate_delta)
      with h | h
    · rw [if_pos h]
      exact ⟨hle, by omega⟩
    · rw [if_neg (Nat.not_le.mpr h)]
      exact ⟨Nat.le_add_right _ _, by omega⟩
  · intro hh hacc hgt hfin hrate
    unfold trapezoidPhase
    rw [if_pos hcount, if_neg hh, if_neg (Nat.not_lt.mpr hacc),
        if_pos (Nat.le_of_lt hgt), if_neg (Nat.ne_of_gt hgt), if_pos htick,
        TrapOut_mk_st, stepper_mk_rate]
    unfold decelRate decelRate0
    by_cases h : s.min_safe_rate < s.trapezoid_adjusted_rate
    · rw [if_pos h, u32sub_eq_of_le (by omega) hrate]
      rcases Nat.lt_or_ge (s.trapezoid_adjusted_rate - b.rate_delta) b.final_rate
        with h2 | h2
      · rw [if_pos h2]
        exact ⟨hfin, by omega, by intro hms _; omega⟩
      · rw [if_neg (Nat.not_lt.mpr h2)]
        exact ⟨by omega, by omega, by intro hms _; omega⟩
    · rw [if_neg h]
      rcases Nat.lt_or_ge (s.trapezoid_adjusted_rate / 2) b.final_rate with h2 | h2
      · rw [if_pos h2]
        exact ⟨hfin, by omega, by intro _ hf2; omega⟩
      · rw [if_neg (Nat.not_lt.mpr h2)]
        exact ⟨by omega, by omega, fun _ _ => rfl⟩

/-- C1 witness. -/
theorem C1_acceleration_cap_witness :
    (5 : Nat) -
      (trapezoidPhase MachState.Cycle
        { steps_x := 10, steps_y := 0, steps_z := 0, step_event_count := 100,
          direction_bits := 0, nominal_rate := 100, initial_rate := 6,
          final_rate := 0, rate_delta := 4, accelerate_until := 0,
          decelerate_after := 1 }
        { counter_x := 0, counter_y := 0, counter_z := 0, event_count := 100,
          step_events_completed := 5, cycles_per_step_event := 2,
          trapezoid_tick_cycle_counter := 319999, trapezoid_adjusted_rate := 5,
          min_safe_rate := 6 }).st.trapezoid_adjusted_rate ≤ 4 := by
  have h := (C1_acceleration_cap MachState.Cycle
    { steps_x := 10, steps_y := 0, steps_z := 0, step_event_count := 100,
      direction_bits := 0, nominal_rate := 100, initial_rate := 6,
      final_rate := 0, rate_delta := 4, accelerate_until := 0,
      decelerate_after := 1 }
    { counter_x := 0, counter_y := 0, counter_z := 0, event_count := 100,
      step_events_completed := 5, cycles_per_step_event := 2,
      trapezoid_tick_cycle_counter := 319999, trapezoid_adjusted_rate := 5,
      min_safe_rate := 6 } (by decide) (by decide) (by decide)).2.2
    (by decide) (by decide) (by decide) (by decide) (by decide)
  exact h.2.1

/-- C2 counterexample: the claim that during a feed hold "the trapezoid
tick cycle counter is not updated" is false. On a firing hold tick with
`trapezoid_tick_cycle_counter = 319999`, `cycles_per_step_event = 2` and
`trapezoid_adjusted_rate = 10 > rate_delta = 4`, the hold branch calls
`iterate_trapezoid_cycle_counter`, which changes the counter to
`319999 + 2 − 320000 = 1 ≠ 319999`. (The source comment "the trapezoid
tick cycle counter is not updated intentionally" refers to the absence
of the boundary *reset* done in the deceleration branch, not to the
per-firing advance.) -/
theorem C2_counterexample :
    (trapezoidPhase MachState.Hold
      { steps_x := 10, steps_y := 0, steps_z := 0, step_event_count := 100,
        direction_bits := 0, nominal_rate := 100, initial_rate := 6,
        final_rate := 0, rate_delta := 4, accelerate_until := 50,
        decelerate_after := 80 }
      { counter_x := 0, counter_y := 0, counter_z := 0, event_count := 100,
        step_events_completed := 5, cycles_per_step_event := 2,
        trapezoid_tick_cycle_counter := 319999, trapezoid_adjusted_rate := 10,
        min_safe_rate := 6 }).st.trapezoid_tick_cycle_counter = 1 ∧
    (1 : Nat) ≠ 319999 := by
  refine ⟨by decide, by decide⟩

/-- C2 (amended): while `sys.state` is Hold and a block is executing,
the tick cycle counter advances exactly as `iterate_trapezoid_cycle_counter`
advances it on every firing (it is only never *reset* at the phase
boundaries); the Bresenham accumulators and the block-done action are
untouched; on a firing tick with `rate_delta < trapezoid_adjusted_rate`
the rate decreases by exactly `rate_delta` regardless of the
`accelerate_until`/`decelerate_after` boundaries; on a firing tick with
`trapezoid_adjusted_rate ≤ rate_delta` the stepper goes idle, the
`EXEC_CYCLE_STOP` bit (bit 2) is raised in `sys.execute`, the rate is
left unchanged and the block is not discarded; on a non-firing call the
rate is unchanged and no action is taken. -/
theorem C2_feed_hold (b : block_t) (s : stepper_t) (execute : Nat)
    (hcount : s.step_events_completed < b.step_event_count) :
    (trapezoidPhase MachState.Hold b s).st.trapezoid_tick_cycle_counter =
      (iterTrapCounter s).trapezoid_tick_cycle_counter ∧
    (trapezoidPhase MachState.Hold b s).st.counter_x = s.counter_x ∧
    (trapezoidPhase MachState.Hold b s).st.counter_y = s.counter_y ∧
    (trapezoidPhase MachState.Hold b s).st.counter_z = s.counter_z ∧
    (trapezoidPhase MachState.Hold b s).blockDone = false ∧
    (tickFires s → b.rate_delta < s.trapezoid_adjusted_rate →
      (trapezoidPhase MachState.Hold b s).st.trapezoid_adjusted_rate =
        s.trapezoid_adjusted_rate - b.rate_delta ∧
      (trapezoidPhase MachState.Hold b s).goIdle = false ∧
      (trapezoidPhase MachState.Hold b s).cycleStop = false) ∧
    (tickFires s → s.trapezoid_adjusted_rate ≤ b.rate_delta →
      (trapezoidPhase MachState.Hold b s).goIdle = true ∧
      (trapezoidPhase MachState.Hold b s).cycleStop = true ∧
      Nat.testBit (applyExec (trapezoidPhase MachState.Hold b s) execute) 2 =
        true ∧
      (trapezoidPhase MachState.Hold b s).st.trapezoid_adjusted_rate =
        s.trapezoid_adjusted_rate) ∧
    (¬ tickFires s →
      (trapezoidPhase MachState.Hold b s).st.trapezoid_adjusted_rate =
        s.trapezoid_adjusted_rate ∧
      (trapezoidPhase MachState.Hold b s).goIdle = false ∧
      (trapezoidPhase MachState.Hold b s).cycleStop = false) := by
  by_cases htick : tickFires s
  · by_cases hle : s.trapezoid_adjusted_rate ≤ b.rate_delta
    · rw [trapHold_tick_idle b s hcount htick hle, TrapOut_mk_st,
          TrapOut_mk_blockDone, TrapOut_mk_goIdle, TrapOut_mk_cycleStop,
          iterTrap_ttcc_pos s htick]
      refine ⟨rfl, rfl, rfl, rfl, rfl,
        fun _ hgt => absurd hgt (by omega),
        fun _ _ => ⟨rfl, rfl, ?_, rfl⟩,
        fun hnt => absurd htick hnt⟩
      unfold applyExec
      rw [TrapOut_mk_cycleStop, if_pos rfl]
      have he : EXEC_CYCLE_STOP = 1 <<< 2 := rfl
      rw [he]
      exact testBit_or_shift_self execute 2
    · rw [trapHold_tick_sub b s hcount htick (Nat.not_le.mp hle),
          TrapOut_mk_st, TrapOut_mk_blockDone, TrapOut_mk_goIdle,
          TrapOut_mk_cycleStop, iterTrap_ttcc_pos s htick]
      exact ⟨rfl, rfl, rfl, rfl, rfl,
        fun _ _ => ⟨rfl, rfl, rfl⟩,
        fun _ hle2 => absurd hle2 hle,
        fun hnt => absurd htick hnt⟩
  · rw [trapHold_notick b s hcount htick, TrapOut_mk_st, TrapOut_mk_blockDone,
        TrapOut_mk_goIdle, TrapOut_mk_cycleStop, iterTrap_ttcc_neg s htick]
    exact ⟨rfl, rfl, rfl, rfl, rfl,
      fun ht => absurd ht htick,
      fun ht => absurd ht htick,
      fun _ => ⟨rfl, rfl, rfl⟩⟩

/-- C2 witness. -/
theorem C2_feed_hold_witness :
    (trapezoidPhase MachState.Hold
      { steps_x := 10, steps_y := 0, steps_z := 0, step_event_count := 100,
        direction_bits := 0, nominal_rate := 100, initial_rate := 6,
        final_rate := 0, rate_delta := 4, accelerate_until := 50,
        decelerate_after := 80 }
      { counter_x := 0, counter_y := 0, counter_z := 0, event_count := 100,
        step_events_completed := 5, cycles_per_step_event := 2,
        trapezoid_tick_cycle_counter := 319999, trapezoid_adjusted_rate := 10,
        min_safe_rate := 6 }).st.trapezoid_adjusted_rate = 10 - 4 ∧
    (trapezoidPhase MachState.Hold
      { steps_x := 10, steps_y := 0, steps_z := 0, step_event_count := 100,
        direction_bits := 0, nominal_rate := 100, initial_rate := 6,
        final_rate := 0, rate_delta := 4, accelerate_until := 50,
        decelerate_after := 80 }
      { counter_x := 0, counter_y := 0, counter_z := 0, event_count := 100,
        step_events_completed := 5, cycles_per_step_event := 2,
        trapezoid_tick_cycle_counter := 319999, trapezoid_adjusted_rate := 10,
        min_safe_rate := 6 }).goIdle = false := by
  have h := C2_feed_hold
    { steps_x := 10, steps_y := 0, steps_z := 0, step_event_count := 100,
      direction_bits := 0, nominal_rate := 100, initial_rate := 6,
      final_rate := 0, rate_delta := 4, accelerate_until := 50,
      decelerate_after := 80 }
    { counter_x := 0, counter_y := 0, counter_z := 0, event_count := 100,
      step_events_completed := 5, cycles_per_step_event := 2,
      trapezoid_tick_cycle_counter := 319999, trapezoid_adjusted_rate := 10,
      min_safe_rate := 6 } 0 (by decide)
  have h6 := h.2.2.2.2.2.1 (by decide) (by decide)
  exact ⟨h6.1, h6.2.1⟩

end Grbl
